import Mathlib

/-!
Verification of the wake-cycle controller of the micro:bit v2 BLE plant-care
device (`examples/microbitv2_ble_plant_care/code.py`).

The persistent sleep-memory block (15 bytes) is modelled as a structure whose
fields mirror the byte layout documented in the source:
  [0]     init marker (0xAA)
  [1-10]  5 days x 2 bytes (high, low), day0 = oldest, day4 = today
  [11-12] wake counter (uint16 little-endian)
  [13]    running high for the current period
  [14]    running low for the current period
Moisture values are 0..100 so every byte write in the modelled paths stays in
range; bytes are modelled as `Nat`.
-/

/-- The 15-byte `alarm.sleep_memory` block, one field per byte position. -/
structure SleepMem where
  marker : Nat
  d0h : Nat
  d0l : Nat
  d1h : Nat
  d1l : Nat
  d2h : Nat
  d2l : Nat
  d3h : Nat
  d3l : Nat
  d4h : Nat
  d4l : Nat
  cntLo : Nat
  cntHi : Nat
  rh : Nat
  rl : Nat
deriving DecidableEq, Repr

/-- `INIT_MARKER = 0xAA` from the source. -/
def INIT_MARKER : Nat := 0xAA

/-- The block produced by the `hist_init` recovery path: the loop zeroes all
15 bytes, then writes the marker into byte 0. -/
def freshMem : SleepMem :=
  { marker := INIT_MARKER, d0h := 0, d0l := 0, d1h := 0, d1l := 0,
    d2h := 0, d2l := 0, d3h := 0, d3l := 0, d4h := 0, d4l := 0,
    cntLo := 0, cntHi := 0, rh := 0, rl := 0 }

/-- `hist_init`: if the stored marker differs from `INIT_MARKER`, zero the
whole block and write the marker; otherwise leave the block untouched. -/
def hist_init (m : SleepMem) : SleepMem :=
  if m.marker ≠ INIT_MARKER then freshMem else m

/-- The all-zero block of a cold boot (retained memory cleared). -/
def zeroMem : SleepMem :=
  { marker := 0, d0h := 0, d0l := 0, d1h := 0, d1l := 0,
    d2h := 0, d2l := 0, d3h := 0, d3l := 0, d4h := 0, d4l := 0,
    cntLo := 0, cntHi := 0, rh := 0, rl := 0 }

/-- The block state right after `hist_init` on a cold boot. -/
def initMem : SleepMem := hist_init zeroMem

/-- `_wake_count`: `sleep_memory[11] | (sleep_memory[12] << 8)`. -/
def wake_count (m : SleepMem) : Nat := m.cntLo ||| (m.cntHi <<< 8)

/-- `_set_wake_count`: store `n & 0xFF` and `(n >> 8) & 0xFF`. -/
def set_wake_count (m : SleepMem) (n : Nat) : SleepMem :=
  { m with cntLo := n &&& 0xFF, cntHi := (n >>> 8) &&& 0xFF }

/-- `hist_get`: the 5 `(high, low)` day slots, index 0 = oldest, 4 = today. -/
def hist_get (m : SleepMem) : List (Nat × Nat) :=
  [(m.d0h, m.d0l), (m.d1h, m.d1l), (m.d2h, m.d2l), (m.d3h, m.d3l), (m.d4h, m.d4l)]

/-- The running-high update of `hist_update`: on the first sample of a period
(`cnt == 0`) it is the sample itself, otherwise `moisture` replaces `rh` only
when strictly greater. -/
def run_high (m : SleepMem) (moisture : Nat) : Nat :=
  if wake_count m = 0 then moisture
  else if moisture > m.rh then moisture else m.rh

/-- The running-low update of `hist_update`: on the first sample of a period
(`cnt == 0`) it is the sample itself, otherwise `moisture` replaces `rl` only
when strictly smaller. -/
def run_low (m : SleepMem) (moisture : Nat) : Nat :=
  if wake_count m = 0 then moisture
  else if moisture < m.rl then moisture else m.rl

/-- `WAKES_PER_DAY = (24 * 3600) // SLEEP_SECONDS`. -/
def wakes_per_day (sleepSeconds : Nat) : Nat := (24 * 3600) / sleepSeconds

/-- `hist_update(moisture)` with the day length `wpd` (`WAKES_PER_DAY`):
update the running pair, mirror it into the day-4 slot (bytes 9 and 10),
increment the wake counter, and on reaching `wpd` shift the day slots one
position toward oldest, zero the running pair and reset the counter. -/
def hist_update (wpd : Nat) (m : SleepMem) (moisture : Nat) : SleepMem :=
  let rh := run_high m moisture
  let rl := run_low m moisture
  let m1 : SleepMem := { m with rh := rh, rl := rl, d4h := rh, d4l := rl }
  let cnt := wake_count m + 1
  if cnt ≥ wpd then
    let m2 : SleepMem :=
      { m1 with d0h := m1.d1h, d0l := m1.d1l, d1h := m1.d2h, d1l := m1.d2l,
                d2h := m1.d3h, d2l := m1.d3l, d3h := m1.d4h, d3l := m1.d4l,
                rh := 0, rl := 0 }
    set_wake_count m2 0
  else
    set_wake_count m1 cnt

/-- The list of states reached after each successive `hist_update` call. -/
def hist_states (wpd : Nat) (m : SleepMem) : List Nat → List SleepMem
  | [] => []
  | v :: vs => hist_update wpd m v :: hist_states wpd (hist_update wpd m v) vs

/-- `BLE_EXTEND_MARGIN = 2.0`. Times are modelled as rationals. -/
def BLE_EXTEND_MARGIN : ℚ := 2

/-- `PUMP_COOLDOWN = 10` seconds. -/
def PUMP_COOLDOWN : ℚ := 10

/-- `N_SAMPLES = 10`. -/
def N_SAMPLES : Nat := 10

/-- `extend_deadline(seconds)` from `wake_cycle`: the new deadline, given the
current `deadline`, the current time `now` and the requested window length
`seconds`. Returns early (deadline unchanged) when
`remaining > seconds - BLE_EXTEND_MARGIN`; otherwise adopts `now + seconds`
whenever that exceeds the current deadline. -/
def extend_deadline (deadline now seconds : ℚ) : ℚ :=
  let remaining := deadline - now
  if remaining > seconds - BLE_EXTEND_MARGIN then deadline
  else
    let new_deadline := now + seconds
    if new_deadline > deadline then new_deadline else deadline

/-- The pump branch of one connected poll tick in `wake_cycle`:
`pv = pc.value[0]`. When `pv > 0` the pump runs once for `pv` seconds and the
characteristic is written back to 0 in the same tick. Returns the list of pump
activations performed and the characteristic value after the tick. -/
def pump_poll (pv : Nat) : List Nat × Nat :=
  if pv > 0 then ([pv], 0) else ([], pv)

/-- The sleep-interval branch of one connected poll tick in `wake_cycle`:
given the configured `(SLEEP_SECONDS, WAKES_PER_DAY)` pair and the raw bytes
of the sleep characteristic, decode `sv[0] | (sv[1] << 8)` and adopt it (and
recompute `WAKES_PER_DAY = 86400 // new`) only when it lies in `[10, 3600]`
and differs from the current interval. -/
def sleep_poll (sleepSeconds wakesPerDay : Nat) (sv : List Nat) : Nat × Nat :=
  if 2 ≤ sv.length then
    let new_sleep := sv.getD 0 0 ||| (sv.getD 1 0 <<< 8)
    if 10 ≤ new_sleep ∧ new_sleep ≤ 3600 ∧ new_sleep ≠ sleepSeconds then
      (new_sleep, wakes_per_day new_sleep)
    else (sleepSeconds, wakesPerDay)
  else (sleepSeconds, wakesPerDay)

/-- The percentage computed by `read_moisture` once past the cooldown gate:
average the raw ADC samples, invert onto 0..100 and clamp. -/
def sensor_pct (samples : List Nat) : Nat :=
  let avg := samples.sum / N_SAMPLES
  let pct : Int := 100 - (avg * 100 / 65535 : Nat)
  (max 0 (min 100 pct)).toNat

/-- `read_moisture`: `None` while within `PUMP_COOLDOWN` seconds of the last
pump activation, otherwise the averaged, clamped percentage. -/
def read_moisture (now last_pump : ℚ) (samples : List Nat) : Option Nat :=
  if now - last_pump < PUMP_COOLDOWN then none
  else some (sensor_pct samples)

/-- `do_read`: attempt a moisture read; on `None` return with the history and
the moisture characteristic untouched, on success run `hist_update` and push
the fresh value to the characteristic. Result: (returned sample, sleep-memory
block after the call, moisture characteristic value after the call). -/
def do_read (wpd : Nat) (mem : SleepMem) (mcVal : Nat) (now lastPump : ℚ)
    (samples : List Nat) : Option Nat × SleepMem × Nat :=
  match read_moisture now lastPump samples with
  | none => (none, mem, mcVal)
  | some m => (some m, hist_update wpd mem m, m)

/-- A GATT characteristic declaration as built by
`_bleio.Characteristic.add_to_service` in `ble_setup`: the property flags
passed in `properties=...`, the length arguments and the initial value. -/
structure CharDecl where
  propRead : Bool
  propWrite : Bool
  propNotify : Bool
  maxLength : Nat
  fixedLength : Bool
  initialValue : List Nat
deriving DecidableEq, Repr

/-- The moisture characteristic: `properties = READ | WRITE`, 1 byte fixed,
initial value `bytes([0])`. -/
def moisture_char : CharDecl :=
  { propRead := true, propWrite := true, propNotify := false,
    maxLength := 1, fixedLength := true, initialValue := [0] }

/-- The pump characteristic: `properties = READ | WRITE`, 1 byte fixed,
initial value `bytes([0])`. -/
def pump_char : CharDecl :=
  { propRead := true, propWrite := true, propNotify := false,
    maxLength := 1, fixedLength := true, initialValue := [0] }

/-- The sleep-interval characteristic: `properties = READ | WRITE`, 2 bytes
fixed, initial value `SLEEP_SECONDS.to_bytes(2, 'little')`. -/
def sleep_char (sleepSeconds : Nat) : CharDecl :=
  { propRead := true, propWrite := true, propNotify := false,
    maxLength := 2, fixedLength := true,
    initialValue := [sleepSeconds % 256, (sleepSeconds >>> 8) % 256] }

/-- The running pair never inverts: the updated low stays below the updated
high whenever the stored pair was ordered. -/
lemma run_low_le_run_high (m : SleepMem) (v : Nat) (hm : m.rl ≤ m.rh) :
    run_low m v ≤ run_high m v := by
  unfold run_low run_high
  split_ifs <;> omega

/-- One `hist_update` call preserves `rl ≤ rh` and, whenever the resulting
wake counter is nonzero (the call did not roll over), leaves the day-4 slot
equal to the running pair. -/
lemma hist_update_inv (wpd : Nat) (m : SleepMem) (v : Nat) (hm : m.rl ≤ m.rh) :
    (hist_update wpd m v).rl ≤ (hist_update wpd m v).rh ∧
    (wake_count (hist_update wpd m v) ≠ 0 →
      (hist_update wpd m v).d4h = (hist_update wpd m v).rh ∧
      (hist_update wpd m v).d4l = (hist_update wpd m v).rl) := by
  unfold hist_update
  dsimp only
  split_ifs with hroll
  · refine ⟨le_refl 0, fun hcnt => absurd ?_ hcnt⟩
    simp [wake_count, set_wake_count]
  · exact ⟨run_low_le_run_high m v hm, fun _ => ⟨rfl, rfl⟩⟩

/-- Every state along a `hist_update` trace started from an ordered block
satisfies the running-pair order and the newest-slot mirror (away from
rollover). -/
lemma hist_states_inv (wpd : Nat) (vs : List Nat) :
    ∀ m : SleepMem, m.rl ≤ m.rh →
      ∀ m' ∈ hist_states wpd m vs,
        m'.rl ≤ m'.rh ∧
        (wake_count m' ≠ 0 → m'.d4h = m'.rh ∧ m'.d4l = m'.rl) := by
  induction vs with
  | nil => intro m _ m' hm'; simp [hist_states] at hm'
  | cons v vs ih =>
    intro m hm m' hm'
    rw [hist_states, List.mem_cons] at hm'
    rcases hm' with h | h
    · subst h; exact hist_update_inv wpd m v hm
    · exact ih (hist_update wpd m v) (hist_update_inv wpd m v hm).1 m' h

/- ------------------------------------------------------------------ -/
/- Claims                                                              -/
/- ------------------------------------------------------------------ -/

/-- Claim C1, counterexample: with `wakesPerDay = 86400 / 43200 = 2`, after
the `hist_update` call on sample 70 that reaches the rollover threshold
(samples 30 then 70, both in 0..100, from the initialized block), the newest
(day-4) history slot does not equal the running pair: the slot still holds
the completed day's high 70 while `runningHigh` was reset to 0. -/
theorem c1_newest_slot_mirror_cex :
    (hist_update (wakes_per_day 43200) (hist_update (wakes_per_day 43200) initMem 30) 70).d4h ≠
      (hist_update (wakes_per_day 43200) (hist_update (wakes_per_day 43200) initMem 30) 70).rh := by
  decide

/-- Claim C1, amended: for every sequence of `hist_update` calls with inputs
in 0..100 starting from the initialized block, after every call
`runningHigh >= runningLow` holds, and after every call whose resulting wake
counter is nonzero (every call that does not reach the rollover threshold)
the newest (day-4) history slot equals `(runningHigh, runningLow)`. -/
theorem c1_running_pair_invariant (wpd : Nat) (vs : List Nat)
    (hv : ∀ v ∈ vs, v ≤ 100) :
    ∀ m' ∈ hist_states wpd initMem vs,
      m'.rl ≤ m'.rh ∧
      (wake_count m' ≠ 0 → m'.d4h = m'.rh ∧ m'.d4l = m'.rl) :=
  hist_states_inv wpd vs initMem (by decide)

/-- Witness for C1's amended theorem at `wpd = 2`, trace `[30]`. -/
theorem c1_running_pair_invariant_witness :
    (∀ v ∈ [30], v ≤ 100) ∧
    hist_update 2 initMem 30 ∈ hist_states 2 initMem [30] ∧
    ((hist_update 2 initMem 30).rl ≤ (hist_update 2 initMem 30).rh ∧
     (wake_count (hist_update 2 initMem 30) ≠ 0 →
       (hist_update 2 initMem 30).d4h = (hist_update 2 initMem 30).rh ∧
       (hist_update 2 initMem 30).d4l = (hist_update 2 initMem 30).rl)) :=
  ⟨by decide, by decide,
   c1_running_pair_invariant 2 [30] (by decide) (hist_update 2 initMem 30) (by decide)⟩

/-- Claim C2: `hist_update` rolls over exactly when the incremented wake
counter reaches `wakesPerDay`: it shifts the five history slots one position
toward oldest (dropping the oldest), zeroes the running pair and resets the
wake counter, all in that call; when the incremented counter stays below
`wakesPerDay` it only records the running pair and increments the counter.
With `wakesPerDay = 2`, samples 30 and 70 then one more sample 50 leave the
former newest day `(70, 30)` in the previous-day slot, the new newest slot
`(50, 50)`, and wake counter 1. -/
theorem c2_rollover_behaviour (wpd : Nat) (m : SleepMem) (v : Nat) :
    (wake_count m + 1 = wpd →
      hist_update wpd m v =
        set_wake_count
          { m with d0h := m.d1h, d0l := m.d1l, d1h := m.d2h, d1l := m.d2l,
                   d2h := m.d3h, d2l := m.d3l,
                   d3h := run_high m v, d3l := run_low m v,
                   d4h := run_high m v, d4l := run_low m v,
                   rh := 0, rl := 0 } 0) ∧
    (wake_count m + 1 < wpd →
      hist_update wpd m v =
        set_wake_count
          { m with d4h := run_high m v, d4l := run_low m v,
                   rh := run_high m v, rl := run_low m v } (wake_count m + 1)) ∧
    (wakes_per_day 43200 = 2 ∧
     (hist_update 2 (hist_update 2 (hist_update 2 initMem 30) 70) 50).d3h = 70 ∧
     (hist_update 2 (hist_update 2 (hist_update 2 initMem 30) 70) 50).d3l = 30 ∧
     (hist_update 2 (hist_update 2 (hist_update 2 initMem 30) 70) 50).d4h = 50 ∧
     (hist_update 2 (hist_update 2 (hist_update 2 initMem 30) 70) 50).d4l = 50 ∧
     wake_count (hist_update 2 (hist_update 2 (hist_update 2 initMem 30) 70) 50) = 1) := by
  refine ⟨fun h => ?_, fun h => ?_, by decide⟩
  · unfold hist_update
    dsimp only
    rw [if_pos (by omega)]
  · unfold hist_update
    dsimp only
    rw [if_neg (by omega)]

/-- Witness for C2 at `wpd = 1` (rollover) and `wpd = 3` (no rollover). -/
theorem c2_rollover_behaviour_witness :
    hist_update 1 initMem 42 =
      set_wake_count
        { initMem with d0h := initMem.d1h, d0l := initMem.d1l,
                       d1h := initMem.d2h, d1l := initMem.d2l,
                       d2h := initMem.d3h, d2l := initMem.d3l,
                       d3h := run_high initMem 42, d3l := run_low initMem 42,
                       d4h := run_high initMem 42, d4l := run_low initMem 42,
                       rh := 0, rl := 0 } 0 ∧
    hist_update 3 initMem 42 =
      set_wake_count
        { initMem with d4h := run_high initMem 42, d4l := run_low initMem 42,
                       rh := run_high initMem 42, rl := run_low initMem 42 }
        (wake_count initMem + 1) :=
  ⟨(c2_rollover_behaviour 1 initMem 42).1 (by decide),
   (c2_rollover_behaviour 3 initMem 42).2.1 (by decide)⟩

/-- Claim C3: for every moisture value in 0..100, `hist_update` with wake
counter 0 records `(moisture, moisture)`, and with wake counter > 0 records
`(max runningHigh moisture, min runningLow moisture)`: the newest (day-4)
slot always receives exactly that pair, and the running bytes hold it
whenever the call does not reach the rollover threshold. Samples 40, 55, 20
at wake counts 0, 1, 2 leave the newest slot `(55, 20)`. -/
theorem c3_update_rule (wpd : Nat) (m : SleepMem) (v : Nat) (hv : v ≤ 100) :
    ((wake_count m = 0 →
        (hist_update wpd m v).d4h = v ∧ (hist_update wpd m v).d4l = v) ∧
     (wake_count m ≠ 0 →
        (hist_update wpd m v).d4h = max m.rh v ∧
        (hist_update wpd m v).d4l = min m.rl v) ∧
     (wake_count m + 1 < wpd →
        (hist_update wpd m v).rh = run_high m v ∧
        (hist_update wpd m v).rl = run_low m v)) ∧
    ((hist_update (wakes_per_day 60) (hist_update (wakes_per_day 60)
        (hist_update (wakes_per_day 60) initMem 40) 55) 20).d4h = 55 ∧
     (hist_update (wakes_per_day 60) (hist_update (wakes_per_day 60)
        (hist_update (wakes_per_day 60) initMem 40) 55) 20).d4l = 20) := by
  refine ⟨⟨fun h0 => ?_, fun h0 => ?_, fun hlt => ?_⟩, by decide⟩
  · unfold hist_update run_high run_low
    dsimp only
    rw [if_pos h0, if_pos h0]
    split_ifs <;> exact ⟨rfl, rfl⟩
  · unfold hist_update run_high run_low
    dsimp only
    rw [if_neg h0, if_neg h0]
    constructor
    · split_ifs <;> simp [set_wake_count] <;> omega
    · split_ifs <;> simp [set_wake_count] <;> omega
  · unfold hist_update
    dsimp only
    rw [if_neg (by omega)]
    exact ⟨rfl, rfl⟩

/-- Witness for C3 at `wpd = 1440`, the initialized block and sample 40. -/
theorem c3_update_rule_witness :
    (40 : Nat) ≤ 100 ∧
    ((hist_update 1440 initMem 40).d4h = 40 ∧ (hist_update 1440 initMem 40).d4l = 40) ∧
    ((hist_update 1440 initMem 40).rh = run_high initMem 40 ∧
     (hist_update 1440 initMem 40).rl = run_low initMem 40) :=
  ⟨by decide,
   (c3_update_rule 1440 initMem 40 (by decide)).1.1 (by decide),
   (c3_update_rule 1440 initMem 40 (by decide)).1.2.2 (by decide)⟩

/-- Claim C4, counterexample: with deadline 28, now 0 and D = 30, the
remaining time `28` equals `D - margin = 30 - 2` exactly — not strictly less
— yet `extend_deadline` does change the deadline (to `now + D = 30`). The
early return only fires on `remaining > D - margin`, so the boundary case
takes effect. -/
theorem c4_extend_strict_cex :
    extend_deadline 28 0 30 ≠ 28 ∧
    ¬ ((28 : ℚ) - 0 < 30 - BLE_EXTEND_MARGIN) := by
  constructor
  · norm_num [extend_deadline, BLE_EXTEND_MARGIN]
  · norm_num [BLE_EXTEND_MARGIN]

/-- Claim C4, amended: for every duration, deadline and current time,
`extend_deadline` never lowers the deadline; it changes the deadline only
when the remaining time `deadline - now` is at most `D - margin` (boundary
included), and when it does take effect the new deadline is `now + D`. -/
theorem c4_extend_monotone (d n s : ℚ) :
    d ≤ extend_deadline d n s ∧
    (extend_deadline d n s ≠ d →
      d - n ≤ s - BLE_EXTEND_MARGIN ∧ extend_deadline d n s = n + s) := by
  unfold extend_deadline
  dsimp only
  split_ifs with h1 h2
  · exact ⟨le_refl d, fun hne => absurd rfl hne⟩
  · exact ⟨le_of_lt h2, fun _ => ⟨by linarith, rfl⟩⟩
  · exact ⟨le_refl d, fun hne => absurd rfl hne⟩

/-- Witness for C4 at deadline 0, now 0, D = 30 (the deadline changes). -/
theorem c4_extend_monotone_witness :
    (0 : ℚ) ≤ extend_deadline 0 0 30 ∧
    ((0 : ℚ) - 0 ≤ 30 - BLE_EXTEND_MARGIN ∧ extend_deadline 0 0 30 = 0 + 30) :=
  ⟨(c4_extend_monotone 0 0 30).1,
   (c4_extend_monotone 0 0 30).2 (by norm_num [extend_deadline, BLE_EXTEND_MARGIN])⟩

/-- Claim C5: on a connected poll tick, a pump characteristic value of 0
causes no pump activation and the characteristic stays 0; any value in
1..255 causes exactly one activation of that many seconds and the
characteristic is written back to 0 in the same tick, so the next tick (with
no new external write) performs no activation. -/
theorem c5_pump_one_shot (pv : Nat) (hpv : pv ≤ 255) :
    (pv = 0 → pump_poll pv = ([], 0)) ∧
    (1 ≤ pv →
      pump_poll pv = ([pv], 0) ∧ pump_poll (pump_poll pv).2 = ([], 0)) := by
  constructor
  · intro h0; subst h0; rfl
  · intro h1
    have hpos : pv > 0 := h1
    simp [pump_poll, hpos]

/-- Witness for C5 at pump commands 0 and 3. -/
theorem c5_pump_one_shot_witness :
    pump_poll 0 = ([], 0) ∧
    (pump_poll 3 = ([3], 0) ∧ pump_poll (pump_poll 3).2 = ([], 0)) :=
  ⟨(c5_pump_one_shot 0 (by decide)).1 rfl,
   (c5_pump_one_shot 3 (by decide)).2 (by decide)⟩

/-- Claim C6: a sleep-interval write decoding outside `[10, 3600]` is
ignored (interval and `wakesPerDay` unchanged); a write inside the range
that differs from the current interval is adopted and `wakesPerDay` is
recomputed as `86400` divided by the new interval (integer division). -/
theorem c6_sleep_write (s w sv0 sv1 : Nat) :
    (sv0 ||| (sv1 <<< 8) < 10 ∨ 3600 < sv0 ||| (sv1 <<< 8) →
      sleep_poll s w [sv0, sv1] = (s, w)) ∧
    (10 ≤ sv0 ||| (sv1 <<< 8) ∧ sv0 ||| (sv1 <<< 8) ≤ 3600 ∧
        sv0 ||| (sv1 <<< 8) ≠ s →
      sleep_poll s w [sv0, sv1] =
        (sv0 ||| (sv1 <<< 8), wakes_per_day (sv0 ||| (sv1 <<< 8)))) := by
  constructor
  · intro hout
    unfold sleep_poll
    simp only [List.length_cons, List.length_nil, List.getD_cons_zero,
      List.getD_cons_succ]
    rw [if_pos (by omega), if_neg (by omega)]
  · intro hin
    unfold sleep_poll
    simp only [List.length_cons, List.length_nil, List.getD_cons_zero,
      List.getD_cons_succ]
    rw [if_pos (by omega), if_pos hin]

/-- Witness for C6: from interval 60 (1440 wakes/day), a write of 5 is
rejected and a write of 120 is adopted with 720 wakes/day. -/
theorem c6_sleep_write_witness :
    sleep_poll 60 1440 [5, 0] = (60, 1440) ∧
    sleep_poll 60 1440 [120, 0] = (120 ||| (0 <<< 8), wakes_per_day (120 ||| (0 <<< 8))) :=
  ⟨(c6_sleep_write 60 1440 5 0).1 (by decide),
   (c6_sleep_write 60 1440 120 0).2 (by decide)⟩

/-- Claim C7: a `do_read` attempt strictly within `PUMP_COOLDOWN` seconds of
the last pump activation yields `none` and leaves the persistent block and
the moisture characteristic value unchanged; an attempt at or after the
cooldown succeeds, runs `hist_update` on the fresh sample and pushes it to
the characteristic. -/
theorem c7_cooldown_no_sample (wpd : Nat) (mem : SleepMem) (mcVal : Nat)
    (now lastPump : ℚ) (samples : List Nat) :
    (now - lastPump < PUMP_COOLDOWN →
      do_read wpd mem mcVal now lastPump samples = (none, mem, mcVal)) ∧
    (PUMP_COOLDOWN ≤ now - lastPump →
      do_read wpd mem mcVal now lastPump samples =
        (some (sensor_pct samples), hist_update wpd mem (sensor_pct samples),
         sensor_pct samples)) := by
  constructor
  · intro hcool
    unfold do_read read_moisture
    rw [if_pos hcool]
  · intro hpast
    unfold do_read read_moisture
    rw [if_neg (by linarith)]

/-- Witness for C7: cooldown 10 s, pump at t = 0; the attempt at t = 5 gives
no sample and changes nothing, the attempt at t = 11 succeeds and updates
the history. -/
theorem c7_cooldown_no_sample_witness :
    do_read 1440 initMem 0 5 0 (List.replicate 10 0) = (none, initMem, 0) ∧
    do_read 1440 initMem 0 11 0 (List.replicate 10 0) =
      (some (sensor_pct (List.replicate 10 0)),
       hist_update 1440 initMem (sensor_pct (List.replicate 10 0)),
       sensor_pct (List.replicate 10 0)) :=
  ⟨(c7_cooldown_no_sample 1440 initMem 0 5 0 (List.replicate 10 0)).1
     (by norm_num [PUMP_COOLDOWN]),
   (c7_cooldown_no_sample 1440 initMem 0 11 0 (List.replicate 10 0)).2
     (by norm_num [PUMP_COOLDOWN])⟩

/-- Claim C8, code evaluation: `ble_setup` declares the moisture
characteristic as 1 byte fixed-length with READ and WRITE — but without the
NOTIFY property the file's own header (and the spec) document; the pump
characteristic is 1 byte read/write and the sleep-interval characteristic is
2 bytes read/write with a little-endian initial value. -/
theorem c8_gatt_declaration :
    (moisture_char.maxLength = 1 ∧ moisture_char.fixedLength = true ∧
     moisture_char.propRead = true ∧ moisture_char.propWrite = true ∧
     moisture_char.propNotify = false) ∧
    (pump_char.maxLength = 1 ∧ pump_char.fixedLength = true ∧
     pump_char.propRead = true ∧ pump_char.propWrite = true) ∧
    ((sleep_char 60).maxLength = 2 ∧ (sleep_char 60).fixedLength = true ∧
     (sleep_char 60).propRead = true ∧ (sleep_char 60).propWrite = true ∧
     (sleep_char 60).initialValue = [60, 0] ∧
     (sleep_char 300).initialValue = [44, 1]) := by
  decide

/-- Claim C9: `hist_init` is idempotent: a mismatched marker rezeroes the
block and writes the marker, a matching marker changes nothing, and running
it twice from any block equals running it once. -/
theorem c9_init_idempotent (m : SleepMem) :
    hist_init (hist_init m) = hist_init m ∧
    (m.marker = INIT_MARKER → hist_init m = m) ∧
    (m.marker ≠ INIT_MARKER → hist_init m = freshMem) := by
  unfold hist_init
  split_ifs <;> simp_all [freshMem, INIT_MARKER]

/-- Witness for C9 on the all-zero cold-boot block (marker mismatch). -/
theorem c9_init_idempotent_witness :
    hist_init zeroMem = freshMem ∧
    hist_init (hist_init zeroMem) = hist_init zeroMem :=
  ⟨(c9_init_idempotent zeroMem).2.2 (by decide),
   (c9_init_idempotent zeroMem).1⟩

/-- A `hist_update` call on a block whose wake counter is 0 stores the fresh
sample as both halves of the newest slot. -/
lemma hist_update_fresh (wpd : Nat) (m : SleepMem) (w : Nat)
    (h0 : wake_count m = 0) :
    (hist_update wpd m w).d4h = w ∧ (hist_update wpd m w).d4l = w := by
  unfold hist_update run_high run_low
  dsimp only
  rw [if_pos h0, if_pos h0]
  split_ifs <;> exact ⟨rfl, rfl⟩

/-- Claim C10: immediately after the `hist_update` call whose incremented
wake counter reaches `wakesPerDay`, the newest (day-4) slot still holds the
completed day's running pair and equals the second-newest (day-3) slot,
while the running bytes and the wake counter are 0; the newest slot is only
overwritten by the next sample, which replaces it with that sample's pair. -/
theorem c10_post_rollover (wpd : Nat) (m : SleepMem) (v w : Nat)
    (h : wake_count m + 1 = wpd) :
    (hist_update wpd m v).d4h = run_high m v ∧
    (hist_update wpd m v).d4l = run_low m v ∧
    (hist_update wpd m v).d3h = (hist_update wpd m v).d4h ∧
    (hist_update wpd m v).d3l = (hist_update wpd m v).d4l ∧
    (hist_update wpd m v).rh = 0 ∧
    (hist_update wpd m v).rl = 0 ∧
    wake_count (hist_update wpd m v) = 0 ∧
    (hist_update wpd (hist_update wpd m v) w).d4h = w ∧
    (hist_update wpd (hist_update wpd m v) w).d4l = w := by
  have hroll : wake_count m + 1 ≥ wpd := by omega
  have hmain : hist_update wpd m v =
      set_wake_count
        { m with d0h := m.d1h, d0l := m.d1l, d1h := m.d2h, d1l := m.d2l,
                 d2h := m.d3h, d2l := m.d3l,
                 d3h := run_high m v, d3l := run_low m v,
                 d4h := run_high m v, d4l := run_low m v,
                 rh := 0, rl := 0 } 0 := by
    unfold hist_update
    dsimp only
    rw [if_pos hroll]
  have hwc : wake_count (hist_update wpd m v) = 0 := by
    rw [hmain]
    simp [wake_count, set_wake_count]
  have hfresh := hist_update_fresh wpd (hist_update wpd m v) w hwc
  exact ⟨by rw [hmain]; rfl, by rw [hmain]; rfl, by rw [hmain]; rfl,
         by rw [hmain]; rfl, by rw [hmain]; rfl, by rw [hmain]; rfl,
         hwc, hfresh.1, hfresh.2⟩

/-- Witness for C10 with `wpd = 2`: one sample 30, then the rollover sample
70, then the next-day sample 50. -/
theorem c10_post_rollover_witness :
    (hist_update 2 (hist_update 2 initMem 30) 70).d4h =
      run_high (hist_update 2 initMem 30) 70 ∧
    (hist_update 2 (hist_update 2 initMem 30) 70).d4l =
      run_low (hist_update 2 initMem 30) 70 ∧
    (hist_update 2 (hist_update 2 initMem 30) 70).d3h =
      (hist_update 2 (hist_update 2 initMem 30) 70).d4h ∧
    (hist_update 2 (hist_update 2 initMem 30) 70).d3l =
      (hist_update 2 (hist_update 2 initMem 30) 70).d4l ∧
    (hist_update 2 (hist_update 2 initMem 30) 70).rh = 0 ∧
    (hist_update 2 (hist_update 2 initMem 30) 70).rl = 0 ∧
    wake_count (hist_update 2 (hist_update 2 initMem 30) 70) = 0 ∧
    (hist_update 2 (hist_update 2 (hist_update 2 initMem 30) 70) 50).d4h = 50 ∧
    (hist_update 2 (hist_update 2 (hist_update 2 initMem 30) 70) 50).d4l = 50 :=
  c10_post_rollover 2 (hist_update 2 initMem 30) 70 50 (by decide)
